import Mathlib

/-!
Shallow embedding of the post-IPO catalyst tracker (`src/app.py`).

Dates are modelled as integers counting days since 1970-01-01 (the proleptic
Gregorian calendar, as Python's `datetime.date` uses).  Conversion between day
counts and (year, month, day) triples follows the standard `civil_from_days`
and `days_from_civil` algorithms, so `monthOf`, `yearOf` and `fmtMonthYear`
mirror Python's `date.month`, `date.year` and `strftime` on the dates the
program manipulates.

Prices are IEEE-style floating point values (numpy `float64`).  Arithmetic on
finite values is modelled exactly over `Rat` (rounding of finite results is
irrelevant to every claim below); what matters — and is modelled faithfully —
is the special-value behaviour: dividing a finite nonzero value by (positive)
zero yields a signed infinity, `0/0` yields NaN, and no exception is raised.
Python's `f"{x:+.2f}"` format renders infinities and NaN as `+inf`, `-inf`
and `+nan`.
-/

namespace IPO

/-- Month/day/year extraction: `civil_from_days` (days since 1970-01-01 to
(year, month, day)), matching Python `datetime.date` for all dates. -/
def civilFromDays (z0 : Int) : Int × Nat × Nat :=
  let z : Int := z0 + 719468
  let era : Int := Int.fdiv z 146097
  let doe : Nat := (z - era * 146097).toNat
  let yoe : Nat := (doe - doe / 1460 + doe / 36524 - doe / 146096) / 365
  let y : Int := (yoe : Int) + era * 400
  let doy : Nat := doe - (365 * yoe + yoe / 4 - yoe / 100)
  let mp : Nat := (5 * doy + 2) / 153
  let d : Nat := doy - (153 * mp + 2) / 5 + 1
  let m : Nat := if mp < 10 then mp + 3 else mp - 9
  (if m ≤ 2 then y + 1 else y, m, d)

/-- Inverse conversion `days_from_civil`, used to name concrete dates. -/
def daysFromCivil (y0 : Int) (m d : Nat) : Int :=
  let y : Int := if m ≤ 2 then y0 - 1 else y0
  let era : Int := Int.fdiv y 400
  let yoe : Nat := (y - era * 400).toNat
  let doy : Nat := (153 * (if 2 < m then m - 3 else m + 9) + 2) / 5 + d - 1
  let doe : Nat := yoe * 365 + yoe / 4 - yoe / 100 + doy
  era * 146097 + (doe : Int) - 719468

/-- Python `date.month` of an epoch-day value. -/
def monthOf (d : Int) : Nat := (civilFromDays d).2.1

/-- Python `date.year` of an epoch-day value. -/
def yearOf (d : Int) : Int := (civilFromDays d).1

/-- Python `strftime('%b')`: English month abbreviation. -/
def monthAbbrev (m : Nat) : String :=
  match m with
  | 1 => "Jan" | 2 => "Feb" | 3 => "Mar" | 4 => "Apr"
  | 5 => "May" | 6 => "Jun" | 7 => "Jul" | 8 => "Aug"
  | 9 => "Sep" | 10 => "Oct" | 11 => "Nov" | 12 => "Dec"
  | _ => "???"

/-- Python `strftime('%b %Y')` of an epoch-day value, e.g. `"Mar 2025"`. -/
def fmtMonthYear (d : Int) : String :=
  monthAbbrev (monthOf d) ++ " " ++ toString (yearOf d)

/-- IEEE-style floating point value: a finite value (modelled exactly as a
rational; negative zero is not distinguished), the two infinities, or NaN. -/
inductive PFloat where
  | fin : Rat → PFloat
  | inf : PFloat
  | ninf : PFloat
  | nan : PFloat
deriving DecidableEq, Inhabited

/-- Floating point subtraction (special values per IEEE 754). -/
def PFloat.sub : PFloat → PFloat → PFloat
  | .nan, _ => .nan
  | _, .nan => .nan
  | .fin a, .fin b => .fin (a - b)
  | .fin _, .inf => .ninf
  | .fin _, .ninf => .inf
  | .inf, .fin _ => .inf
  | .ninf, .fin _ => .ninf
  | .inf, .ninf => .inf
  | .ninf, .inf => .ninf
  | .inf, .inf => .nan
  | .ninf, .ninf => .nan

/-- Floating point division.  The case that matters to the program: dividing
by (positive) zero raises no error and returns a signed infinity, and `0/0`
returns NaN — numpy `float64` semantics. -/
def PFloat.div : PFloat → PFloat → PFloat
  | .nan, _ => .nan
  | _, .nan => .nan
  | .fin a, .fin b =>
      if b = 0 then (if a = 0 then .nan else if 0 < a then .inf else .ninf)
      else .fin (a / b)
  | .fin _, .inf => .fin 0
  | .fin _, .ninf => .fin 0
  | .inf, .fin b => if b < 0 then .ninf else .inf
  | .ninf, .fin b => if b < 0 then .inf else .ninf
  | _, _ => .nan

/-- Multiplication by the positive constant 100. -/
def PFloat.mul100 : PFloat → PFloat
  | .fin a => .fin (a * 100)
  | .inf => .inf
  | .ninf => .ninf
  | .nan => .nan

/-- Round to the nearest integer, ties to even (the rounding of `%.2f`). -/
def roundHalfEven (x : Rat) : Int :=
  let f : Int := ⌊x⌋
  let r : Rat := x - (f : Rat)
  if r < 1/2 then f
  else if 1/2 < r then f + 1
  else if f % 2 = 0 then f else f + 1

/-- Left-pad a two-digit fraction field. -/
def pad2 (n : Nat) : String := if n < 10 then "0" ++ toString n else toString n

/-- Python `f"{x:+.2f}"`: explicit sign, two decimals; `+inf` / `-inf` /
`+nan` for the special values. -/
def fmtSigned2 : PFloat → String
  | .fin q =>
      let sign := if q < 0 then "-" else "+"
      let c : Int := roundHalfEven (|q| * 100)
      let cn : Nat := c.toNat
      sign ++ toString (cn / 100) ++ "." ++ pad2 (cn % 100)
  | .inf => "+inf"
  | .ninf => "-inf"
  | .nan => "+nan"

/-- One row of the full-history price frame: its date (epoch day) and its
`Close` value. -/
structure PricePoint where
  date : Int
  close : PFloat
deriving DecidableEq, Inhabited

/-- The 6-tuple returned by `IPOCatalystTracker.get_metrics`
(`current_price, prev_close, ytd_return, one_yr_return, ytd_val, one_yr_val`). -/
structure Metrics where
  currentPrice : PFloat
  prevClose : PFloat
  ytdReturn : String
  oneYrReturn : String
  ytdVal : PFloat
  oneYrVal : PFloat
deriving DecidableEq

/-- The percentage-change formula `((current - base) / base) * 100` used
for both the YTD and the one-year return. -/
def pctChange (current base : PFloat) : PFloat :=
  ((current.sub base).div base).mul100

/-- Embedding of `IPOCatalystTracker.get_metrics` (src/app.py lines
83-114).  `hist` is the
ascending full-history price series `hist_max`; `now` is today's epoch day
(the code takes both `datetime.now()` and `pd.Timestamp.now()` at the same
moment).  `iloc[-1]`, `iloc[-2]`, `iloc[0]` become last / second-to-last /
head; the pandas boolean-mask selections become `List.filter`. -/
def get_metrics (hist : List PricePoint) (now : Int) : Metrics :=
  if hist.isEmpty then
    ⟨.fin 0, .fin 0, "N/A", "N/A", .fin 0, .fin 0⟩
  else
    let dflt : PricePoint := ⟨0, .fin 0⟩
    let currentPrice := (hist.getLast?.getD dflt).close
    let prevClose :=
      if 1 < hist.length then ((hist[hist.length - 2]?).getD dflt).close
      else currentPrice
    let ytdData := hist.filter (fun p => yearOf p.date = yearOf now)
    let ytdVal :=
      if ytdData.isEmpty then .fin 0
      else pctChange currentPrice ((ytdData.head?.getD dflt).close)
    let ytdReturn :=
      if ytdData.isEmpty then "N/A" else fmtSigned2 ytdVal ++ "%"
    let pastData := hist.filter (fun p => p.date ≤ now - 365)
    let oneYrVal :=
      if pastData.isEmpty then
        pctChange currentPrice ((hist.head?.getD dflt).close)
      else pctChange currentPrice ((pastData.getLast?.getD dflt).close)
    let oneYrReturn :=
      if pastData.isEmpty then fmtSigned2 oneYrVal ++ "% (Since IPO)"
      else if 250 ≤ hist.length then fmtSigned2 oneYrVal ++ "%"
      else fmtSigned2 oneYrVal ++ "% (Since IPO)"
    ⟨currentPrice, prevClose, ytdReturn, oneYrReturn, ytdVal, oneYrVal⟩

/-- Embedding of `IPOCatalystTracker.get_mechanical_deadlines` (lines
116-122): `{}` when
no IPO date was resolved, else the three named dates in insertion order. -/
def get_mechanical_deadlines (ipoDate : Option Int) : List (String × Int) :=
  match ipoDate with
  | none => []
  | some d =>
      [("IPO Pricing / First Trade", d),
       ("Quiet Period (T+25)", d + 25),
       ("Lock-Up Expiry (T+180)", d + 180)]

/-- Deadline status rendering (lines 212-214):
`"Passed" if date < datetime.now().date() else "Upcoming"`. -/
def deadlineStatus (date today : Int) : String :=
  if date < today then "Passed" else "Upcoming"

/-- Maturity classification (lines 176-177):
`days_public = (today - ipo_date).days; is_mature = days_public > 365`. -/
def is_mature (ipoDate today : Int) : Bool :=
  365 < today - ipoDate

/-- One row of the predicted-inclusions table
(`{"Index": ..., "Target": ..., "Prob": ...}`). -/
structure Inclusion where
  index : String
  target : String
  prob : String
deriving DecidableEq, Inhabited

/-- Character-list test: the first list starts the second. -/
def charsLeadWith : List Char → List Char → Bool
  | [], _ => true
  | _ :: _, [] => false
  | a :: as, b :: bs => a = b && charsLeadWith as bs

/-- Auxiliary scan for substring containment. -/
def strContainsAux (needle : List Char) : List Char → Bool
  | [] => charsLeadWith needle []
  | c :: cs => charsLeadWith needle (c :: cs) || strContainsAux needle cs

/-- Python `needle in hay` on strings: substring containment. -/
def strContains (hay needle : String) : Bool :=
  strContainsAux needle.data hay.data

/-- The Russell-reconstitution rule (lines 251-252): the first zero or one
entries of the inclusions list, keyed on the IPO month. -/
def russellIncl (ipoMonth : Nat) : List Inclusion :=
  if ipoMonth ≤ 4 then
    [⟨"Russell 2000/3000", "Late June", "High"⟩]
  else if ipoMonth ≤ 10 then
    [⟨"Russell 2000/3000", "Dec 11", "High"⟩]
  else []

/-- Unconditional entries (lines 254-256), appended after the Russell rule. -/
def alwaysIncl (ipoDate : Int) (mcap : Rat) : List Inclusion :=
  [⟨"CRSP US Total Market (VTI)", "Next Quarterly Rebalance", "High"⟩,
   ⟨"MSCI USA IMI", "Next Index Review",
      if (1000000000 : Rat) ≤ mcap then "High" else "Medium"⟩,
   ⟨"S&P Composite 1500", "After " ++ fmtMonthYear (ipoDate + 365), "Low"⟩]

/-- Biotech classification (lines 259-267): override string first, else the
auto-detect test on sector/industry. -/
def isBiotech (sector industry sectorOverride : String) : Bool :=
  if sectorOverride = "Healthcare / Biotech" then true
  else if sectorOverride = "Technology / Growth" then false
  else if sectorOverride = "Auto-Detect" then
    sector = "Healthcare" || strContains industry "Biotech"
      || strContains industry "Pharmaceutical"
  else false

/-- Technology classification (lines 259-268). -/
def isTech (sector industry sectorOverride : String) : Bool :=
  if sectorOverride = "Healthcare / Biotech" then false
  else if sectorOverride = "Technology / Growth" then true
  else if sectorOverride = "Auto-Detect" then
    sector = "Technology" || sector = "Communication Services"
      || sector = "Consumer Discretionary"
  else false

/-- Sector-conditional tail of the inclusions list (lines 270-274). -/
def sectorIncl (sector industry sectorOverride : String) : List Inclusion :=
  if isBiotech sector industry sectorOverride then
    [⟨"S&P Biotech (XBI)", "Next Quarterly Rebalance", "High"⟩,
     ⟨"Nasdaq Biotech (NBI)", "December (Annual)", "High"⟩]
  else if isTech sector industry sectorOverride
      || (!isBiotech sector industry sectorOverride
            && sectorOverride = "Auto-Detect") then
    [⟨"Nasdaq 100 (QQQ)", "Standard or Fast Entry (15 Days)", "Varies"⟩]
  else []

/-- The whole `inclusions` list built by lines 247-274, in append order. -/
def predictInclusions (ipoDate : Int) (sector industry : String) (mcap : Rat)
    (sectorOverride : String) : List Inclusion :=
  russellIncl (monthOf ipoDate) ++ alwaysIncl ipoDate mcap
    ++ sectorIncl sector industry sectorOverride

/-- The block rendered below the deadlines (lines 229-244): either the
fund-holder view (mature) or the predicted-inclusions table (recent IPO). -/
inductive BottomView where
  | fundHolders : Option (List (String × Rat)) → BottomView
  | inclusionTable : List Inclusion → BottomView
deriving DecidableEq

/-- The maturity branch of the page (lines 229-244). -/
def renderBottom (ipoDate today : Int) (sector industry : String) (mcap : Rat)
    (sectorOverride : String) (funds : Option (List (String × Rat))) :
    BottomView :=
  if is_mature ipoDate today then .fundHolders funds
  else .inclusionTable (predictInclusions ipoDate sector industry mcap
    sectorOverride)

/-- The `.info` dictionary's fields of interest; `none` models an absent
key (the dictionary defaults to `{}` when the endpoint is rate-limited). -/
structure StockInfo where
  sector : Option String
  industry : Option String
  marketCap : Option Rat
  shortName : Option String
deriving DecidableEq

/-- The empty `.info` dictionary. -/
def StockInfo.empty : StockInfo := ⟨none, none, none, none⟩

/-- The profile values the page displays. -/
structure Profile where
  sector : String
  industry : String
  mcap : Rat
  shownName : String
deriving DecidableEq

/-- Profile defaulting (lines 157-174 and 187): `.get` with defaults
`'Unknown'` / `0` / `'Company Name'`, and the market-cap fallback
`if not mcap: mcap = fast_info['marketCap']` (any failure there gives 0;
`fastMcap = none` models a raising `fast_info` access). -/
def resolveProfile (info : StockInfo) (fastMcap : Option Rat) : Profile :=
  let sector := info.sector.getD "Unknown"
  let industry := info.industry.getD "Unknown"
  let mcap0 := info.marketCap.getD 0
  let mcap := if mcap0 = 0 then fastMcap.getD 0 else mcap0
  let shownName := info.shortName.getD "Company Name"
  ⟨sector, industry, mcap, shownName⟩

/-- A provider endpoint's response: data, or a raised throttling/error
exception carrying the exception text. -/
inductive ProvResp (α : Type) where
  | ok : α → ProvResp α
  | exn : String → ProvResp α
deriving DecidableEq

/-- Result of `fetch_data`: the `(success, message)` pair plus the state it
leaves behind (`ipo_date`, `stock_info`). -/
structure FetchResult where
  success : Bool
  message : String
  ipoDate : Option Int
  info : StockInfo
deriving DecidableEq

/-- Embedding of `IPOCatalystTracker.fetch_data` (lines 62-81).
`histCall k` is what the
k-th call to `self.stock.history(period="max")` would return; the code makes
exactly one call (k = 0) and never retries.  A raised exception is surfaced
immediately as `"Data fetch error: ..."`; an empty frame as
`"No trading data found for ..."`; a failing `.info` call is swallowed and
leaves `stock_info = {}`. -/
def fetch_data (ticker : String) (histCall : Nat → ProvResp (List PricePoint))
    (infoCall : ProvResp StockInfo) : FetchResult :=
  match histCall 0 with
  | .exn e => ⟨false, "Data fetch error: " ++ e, none, StockInfo.empty⟩
  | .ok hist =>
      if hist.isEmpty then
        ⟨false, "No trading data found for " ++ ticker ++ ".", none,
          StockInfo.empty⟩
      else
        let ipoDate := (hist.map PricePoint.date).min?
        let info := match infoCall with
          | .ok i => i
          | .exn _ => StockInfo.empty
        ⟨true, "Success", ipoDate, info⟩

/-- C6: for every resolved first-trade date, `get_mechanical_deadlines`
returns exactly 3 deadlines with offsets 0, 25 and 180 days from the
first-trade date, in the order pricing, quiet-period end, lock-up expiry. -/
theorem c6_deadlines (d : Int) :
    get_mechanical_deadlines (some d) =
      [("IPO Pricing / First Trade", d + 0),
       ("Quiet Period (T+25)", d + 25),
       ("Lock-Up Expiry (T+180)", d + 180)] ∧
    (get_mechanical_deadlines (some d)).length = 3 := by
  refine ⟨?_, rfl⟩
  simp [get_mechanical_deadlines]

/-- C7: a deadline's status is `"Passed"` iff its date is strictly earlier
than today, and a deadline dated exactly today is `"Upcoming"`. -/
theorem c7_deadline_status (date today : Int) :
    (deadlineStatus date today = "Passed" ↔ date < today) ∧
    deadlineStatus today today = "Upcoming" := by
  constructor
  · constructor
    · intro h
      by_contra hlt
      rw [deadlineStatus, if_neg hlt] at h
      exact absurd h (by decide)
    · intro h
      rw [deadlineStatus, if_pos h]
  · rw [deadlineStatus, if_neg (lt_irrefl today)]

/-- C8: `is_mature` is true iff days public is strictly greater than 365
(exactly 365 days is not mature), and the maturity flag selects the output
branch: mature yields the fund-holder view, non-mature yields the
inclusion-prediction table, and the two views are never equal. -/
theorem c8_maturity (ipoDate today : Int) (sector industry : String)
    (mcap : Rat) (so : String) (funds : Option (List (String × Rat))) :
    (is_mature ipoDate today = true ↔ 365 < today - ipoDate) ∧
    is_mature ipoDate (ipoDate + 365) = false ∧
    (365 < today - ipoDate →
      renderBottom ipoDate today sector industry mcap so funds =
        .fundHolders funds) ∧
    (today - ipoDate ≤ 365 →
      renderBottom ipoDate today sector industry mcap so funds =
        .inclusionTable (predictInclusions ipoDate sector industry mcap so)) ∧
    (∀ l, BottomView.fundHolders funds ≠ BottomView.inclusionTable l) := by
  refine ⟨?_, ?_, ?_, ?_, ?_⟩
  · simp [is_mature]
  · simp [is_mature]
  · intro h
    rw [renderBottom, if_pos (by simpa [is_mature] using h)]
  · intro h
    rw [renderBottom, if_neg (by simp [is_mature]; omega)]
  · intro l h
    exact BottomView.noConfusion h

/-- Concrete instantiation of `c8_maturity`: IPO at day 0; at day 400 the
page shows fund holders, at day 365 it is not yet mature and shows the
inclusion table. -/
theorem c8_maturity_witness :
    renderBottom 0 400 "Unknown" "Unknown" 0 "Auto-Detect" none =
      .fundHolders none ∧
    renderBottom 0 365 "Unknown" "Unknown" 0 "Auto-Detect" none =
      .inclusionTable (predictInclusions 0 "Unknown" "Unknown" 0
        "Auto-Detect") ∧
    is_mature 0 365 = false :=
  ⟨(c8_maturity 0 400 "Unknown" "Unknown" 0 "Auto-Detect" none).2.2.1
      (by decide),
   (c8_maturity 0 365 "Unknown" "Unknown" 0 "Auto-Detect" none).2.2.2.1
      (by decide),
   (c8_maturity 0 365 "Unknown" "Unknown" 0 "Auto-Detect" none).2.1⟩

/-- C9 counterexample: for the ticker `"ABC"` with an entirely missing
profile, the displayed company name is the fixed placeholder
`"Company Name"` (line 187 of src/app.py), not the ticker symbol — indeed
the name-defaulting never consults the ticker at all. -/
theorem c9_profile_counterexample :
    (resolveProfile StockInfo.empty none).shownName = "Company Name" ∧
    (resolveProfile StockInfo.empty none).shownName ≠ "ABC" := by
  exact ⟨rfl, by decide⟩

/-- C9 amended: when the provider supplies no profile fields, resolution
still succeeds with defaults `sector = "Unknown"`, `industry = "Unknown"`,
`marketCapUsd = 0` (after first consulting the secondary "fast"
capitalization source whenever the primary field is absent or zero), and a
displayed name equal to the placeholder `"Company Name"` (not the ticker). -/
theorem c9_profile_defaults (m : Rat) (fast : Option Rat) :
    resolveProfile StockInfo.empty none =
      ⟨"Unknown", "Unknown", 0, "Company Name"⟩ ∧
    (resolveProfile StockInfo.empty (some m)).mcap = m ∧
    (resolveProfile ⟨none, none, some 0, none⟩ (some m)).mcap = m ∧
    (m ≠ 0 → (resolveProfile ⟨none, none, some m, none⟩ fast).mcap = m) := by
  refine ⟨rfl, rfl, rfl, fun hm => ?_⟩
  simp [resolveProfile, hm]

/-- Concrete instantiation of `c9_profile_defaults`: a present nonzero
market cap of 7 is kept even when the fast source would say 5. -/
theorem c9_profile_defaults_witness :
    (resolveProfile ⟨none, none, some 7, none⟩ (some 5)).mcap = 7 :=
  (c9_profile_defaults 7 (some 5)).2.2.2 (by decide)

/-- A provider whose first `history` call raises a throttling exception and
whose every later call would succeed. -/
def throttledOnce : Nat → ProvResp (List PricePoint) :=
  fun k => if k = 0 then .exn "Too Many Requests. Rate limited."
           else .ok [⟨19783, .fin 10⟩]

/-- C10 counterexample: `fetch_data` makes exactly one `history` call and
performs no retry: against a provider that is throttled only on the first
call (any retry would succeed), it fails immediately with the generic
`"Data fetch error: ..."` message, while the same data returned on the
first call succeeds.  No distinct rate-limit error type and no backoff
exist in the code. -/
theorem c10_no_retry_counterexample :
    fetch_data "ABC" throttledOnce (.ok StockInfo.empty) =
      ⟨false, "Data fetch error: Too Many Requests. Rate limited.", none,
        StockInfo.empty⟩ ∧
    (fetch_data "ABC" (fun _ => throttledOnce 1)
      (.ok StockInfo.empty)).success = true := by
  exact ⟨rfl, rfl⟩

/-- C10 amended: an empty price history yields the failure message
`"No trading data found for {ticker}."` naming the ticker; an exception
(including throttling) during the history fetch yields the distinct message
`"Data fetch error: {e}"`, surfaced immediately with no retry and no
backoff; a throttled `.info` call is silently swallowed, leaving an empty
profile on an otherwise successful fetch. -/
theorem c10_error_paths (ticker e : String)
    (hist : List PricePoint) (infoR : ProvResp StockInfo) :
    fetch_data ticker (fun _ => .ok []) infoR =
      ⟨false, "No trading data found for " ++ ticker ++ ".", none,
        StockInfo.empty⟩ ∧
    fetch_data ticker (fun _ => .exn e) infoR =
      ⟨false, "Data fetch error: " ++ e, none, StockInfo.empty⟩ ∧
    "No trading data found for " ++ ticker ++ "." ≠
      "Data fetch error: " ++ e ∧
    (hist ≠ [] →
      (fetch_data ticker (fun _ => .ok hist) (.exn e)).info =
        StockInfo.empty ∧
      (fetch_data ticker (fun _ => .ok hist) (.exn e)).success = true) := by
  refine ⟨rfl, rfl, ?_, fun hh => ?_⟩
  · intro h
    have hd := congrArg String.data h
    simp [String.data_append] at hd
  · have hE : hist.isEmpty = false := by
      simpa [List.isEmpty_iff] using hh
    constructor
    · simp [fetch_data, hE]
    · simp [fetch_data, hE]

/-- Concrete instantiation of `c10_error_paths`: a one-point history with a
throttled `.info` call still succeeds with an empty profile. -/
theorem c10_error_paths_witness :
    (fetch_data "ABC" (fun _ => .ok [⟨19783, PFloat.fin 10⟩])
        (.exn "rate limited")).success = true :=
  (c10_error_paths "ABC" "rate limited" [⟨19783, PFloat.fin 10⟩]
    (.exn "rate limited")).2.2.2 (by decide) |>.2

lemma countP_russellIncl_eq_zero (p : Inclusion → Bool) (m : Nat)
    (h1 : p ⟨"Russell 2000/3000", "Late June", "High"⟩ = false)
    (h2 : p ⟨"Russell 2000/3000", "Dec 11", "High"⟩ = false) :
    (russellIncl m).countP p = 0 := by
  rw [russellIncl]
  split
  · simp [List.countP_cons, h1]
  · split
    · simp [List.countP_cons, h2]
    · simp

lemma countP_alwaysIncl_eq_zero (p : Inclusion → Bool) (d : Int) (m : Rat)
    (h1 : p ⟨"CRSP US Total Market (VTI)", "Next Quarterly Rebalance",
      "High"⟩ = false)
    (h2 : ∀ pr, p ⟨"MSCI USA IMI", "Next Index Review", pr⟩ = false)
    (h3 : ∀ t, p ⟨"S&P Composite 1500", t, "Low"⟩ = false) :
    (alwaysIncl d m).countP p = 0 := by
  simp [alwaysIncl, List.countP_cons, h1, h2, h3]

lemma countP_sectorIncl_eq_zero (p : Inclusion → Bool) (s i so : String)
    (h1 : p ⟨"S&P Biotech (XBI)", "Next Quarterly Rebalance", "High"⟩
      = false)
    (h2 : p ⟨"Nasdaq Biotech (NBI)", "December (Annual)", "High"⟩ = false)
    (h3 : p ⟨"Nasdaq 100 (QQQ)", "Standard or Fast Entry (15 Days)",
      "Varies"⟩ = false) :
    (sectorIncl s i so).countP p = 0 := by
  rw [sectorIncl]
  split
  · simp [List.countP_cons, h1, h2]
  · split
    · simp [List.countP_cons, h3]
    · simp

/-- Row test: any Russell prediction. -/
def isRussellRow (x : Inclusion) : Bool :=
  x.index == "Russell 2000/3000"

/-- Row test: the `"Late June"` high-probability Russell prediction. -/
def isRussellJuneRow (x : Inclusion) : Bool :=
  x.index == "Russell 2000/3000" && x.target == "Late June"
    && x.prob == "High"

/-- Row test: the `"Dec 11"` high-probability Russell prediction. -/
def isRussellDecRow (x : Inclusion) : Bool :=
  x.index == "Russell 2000/3000" && x.target == "Dec 11"
    && x.prob == "High"

/-- C1: the Russell-reconstitution rule.  IPO month in [1,4] puts exactly
one Russell prediction — target `"Late June"`, probability High — at the
head of the inclusion list; month in [5,10] likewise with target
`"Dec 11"`; month 11 or 12 emits no Russell prediction at all. -/
theorem c1_russell (ipoDate : Int) (sector industry : String) (mcap : Rat)
    (so : String) :
    (1 ≤ monthOf ipoDate ∧ monthOf ipoDate ≤ 4 →
      (predictInclusions ipoDate sector industry mcap so).head? =
        some ⟨"Russell 2000/3000", "Late June", "High"⟩ ∧
      (predictInclusions ipoDate sector industry mcap so).countP
        isRussellJuneRow = 1 ∧
      (predictInclusions ipoDate sector industry mcap so).countP
        isRussellRow = 1) ∧
    (5 ≤ monthOf ipoDate ∧ monthOf ipoDate ≤ 10 →
      (predictInclusions ipoDate sector industry mcap so).head? =
        some ⟨"Russell 2000/3000", "Dec 11", "High"⟩ ∧
      (predictInclusions ipoDate sector industry mcap so).countP
        isRussellDecRow = 1 ∧
      (predictInclusions ipoDate sector industry mcap so).countP
        isRussellRow = 1) ∧
    (monthOf ipoDate = 11 ∨ monthOf ipoDate = 12 →
      (predictInclusions ipoDate sector industry mcap so).countP
        isRussellRow = 0) := by
  refine ⟨fun h => ?_, fun h => ?_, fun h => ?_⟩
  · have hr : russellIncl (monthOf ipoDate) =
        [⟨"Russell 2000/3000", "Late June", "High"⟩] := by
      rw [russellIncl, if_pos h.2]
    refine ⟨?_, ?_, ?_⟩
    · rw [predictInclusions, hr]
      rfl
    · rw [predictInclusions, List.countP_append, List.countP_append, hr,
        countP_alwaysIncl_eq_zero isRussellJuneRow ipoDate mcap rfl
          (fun _ => rfl) (fun _ => rfl),
        countP_sectorIncl_eq_zero isRussellJuneRow sector industry so
          rfl rfl rfl]
      decide
    · rw [predictInclusions, List.countP_append, List.countP_append, hr,
        countP_alwaysIncl_eq_zero isRussellRow ipoDate mcap rfl
          (fun _ => rfl) (fun _ => rfl),
        countP_sectorIncl_eq_zero isRussellRow sector industry so
          rfl rfl rfl]
      decide
  · have hr : russellIncl (monthOf ipoDate) =
        [⟨"Russell 2000/3000", "Dec 11", "High"⟩] := by
      rw [russellIncl, if_neg (by omega), if_pos h.2]
    refine ⟨?_, ?_, ?_⟩
    · rw [predictInclusions, hr]
      rfl
    · rw [predictInclusions, List.countP_append, List.countP_append, hr,
        countP_alwaysIncl_eq_zero isRussellDecRow ipoDate mcap rfl
          (fun _ => rfl) (fun _ => rfl),
        countP_sectorIncl_eq_zero isRussellDecRow sector industry so
          rfl rfl rfl]
      decide
    · rw [predictInclusions, List.countP_append, List.countP_append, hr,
        countP_alwaysIncl_eq_zero isRussellRow ipoDate mcap rfl
          (fun _ => rfl) (fun _ => rfl),
        countP_sectorIncl_eq_zero isRussellRow sector industry so
          rfl rfl rfl]
      decide
  · have hr : russellIncl (monthOf ipoDate) = [] := by
      rw [russellIncl, if_neg (by omega), if_neg (by omega)]
    rw [predictInclusions, List.countP_append, List.countP_append, hr,
      countP_alwaysIncl_eq_zero isRussellRow ipoDate mcap rfl
        (fun _ => rfl) (fun _ => rfl),
      countP_sectorIncl_eq_zero isRussellRow sector industry so
        rfl rfl rfl]
    decide

/-- Concrete instantiation of `c1_russell`: an IPO on 2024-03-01 (month 3)
leads with the `"Late June"` Russell entry; an IPO on 2024-11-05 (month 11)
has no Russell entry. -/
theorem c1_russell_witness :
    (predictInclusions (daysFromCivil 2024 3 1) "Unknown" "Unknown" 0
        "Other").head? =
      some ⟨"Russell 2000/3000", "Late June", "High"⟩ ∧
    (predictInclusions (daysFromCivil 2024 11 5) "Unknown" "Unknown" 0
        "Other").countP isRussellRow = 0 :=
  ⟨((c1_russell (daysFromCivil 2024 3 1) "Unknown" "Unknown" 0 "Other").1
      (by decide)).1,
   (c1_russell (daysFromCivil 2024 11 5) "Unknown" "Unknown" 0 "Other").2.2
      (by decide)⟩

/-- Row test: either of the two sector-specific biotech predictions. -/
def isBiotechRow (x : Inclusion) : Bool :=
  x.index == "S&P Biotech (XBI)" || x.index == "Nasdaq Biotech (NBI)"

/-- Row test: the growth-index prediction. -/
def isGrowthRow (x : Inclusion) : Bool :=
  x.index == "Nasdaq 100 (QQQ)"

/-- C2: the sector-conditional rule appends mutually exclusive outcomes at
the end of the list.  Biotech (override `"Healthcare / Biotech"`, or
auto-detect with sector `"Healthcare"` or industry containing `"Biotech"`
or `"Pharmaceutical"`) appends exactly the two biotech predictions and no
growth prediction; the `"Technology / Growth"` override, and any
non-biotech security under auto-detect (whatever its sector), appends
exactly one growth prediction with probability `"Varies"`; the `"Other"`
override appends nothing sector-specific. -/
theorem c2_sector_rule (ipoDate : Int) (sector industry : String)
    (mcap : Rat) (so : String) :
    (so = "Healthcare / Biotech" ∨
        (so = "Auto-Detect" ∧
          (sector = "Healthcare" ∨ strContains industry "Biotech" = true ∨
            strContains industry "Pharmaceutical" = true)) →
      predictInclusions ipoDate sector industry mcap so =
        russellIncl (monthOf ipoDate) ++ alwaysIncl ipoDate mcap ++
          [⟨"S&P Biotech (XBI)", "Next Quarterly Rebalance", "High"⟩,
           ⟨"Nasdaq Biotech (NBI)", "December (Annual)", "High"⟩] ∧
      (predictInclusions ipoDate sector industry mcap so).countP
        isGrowthRow = 0 ∧
      (predictInclusions ipoDate sector industry mcap so).countP
        isBiotechRow = 2) ∧
    (so = "Technology / Growth" ∨
        (so = "Auto-Detect" ∧ sector ≠ "Healthcare" ∧
          strContains industry "Biotech" = false ∧
          strContains industry "Pharmaceutical" = false) →
      predictInclusions ipoDate sector industry mcap so =
        russellIncl (monthOf ipoDate) ++ alwaysIncl ipoDate mcap ++
          [⟨"Nasdaq 100 (QQQ)", "Standard or Fast Entry (15 Days)",
            "Varies"⟩] ∧
      (predictInclusions ipoDate sector industry mcap so).countP
        isBiotechRow = 0 ∧
      (predictInclusions ipoDate sector industry mcap so).countP
        isGrowthRow = 1) ∧
    (so = "Other" →
      predictInclusions ipoDate sector industry mcap so =
        russellIncl (monthOf ipoDate) ++ alwaysIncl ipoDate mcap ∧
      (predictInclusions ipoDate sector industry mcap so).countP
        isBiotechRow = 0 ∧
      (predictInclusions ipoDate sector industry mcap so).countP
        isGrowthRow = 0) := by
  refine ⟨fun h => ?_, fun h => ?_, fun h => ?_⟩
  · have hsec : sectorIncl sector industry so =
        [⟨"S&P Biotech (XBI)", "Next Quarterly Rebalance", "High"⟩,
         ⟨"Nasdaq Biotech (NBI)", "December (Annual)", "High"⟩] := by
      rcases h with h | ⟨h, hd⟩
      · subst h
        simp [sectorIncl, isBiotech]
      · subst h
        have hb : isBiotech sector industry "Auto-Detect" = true := by
          rcases hd with h1 | h1 | h1 <;> simp [isBiotech, h1]
        simp [sectorIncl, hb]
    refine ⟨?_, ?_, ?_⟩
    · rw [predictInclusions, hsec]
    · rw [predictInclusions, List.countP_append, List.countP_append, hsec,
        countP_russellIncl_eq_zero isGrowthRow _ rfl rfl,
        countP_alwaysIncl_eq_zero isGrowthRow ipoDate mcap rfl
          (fun _ => rfl) (fun _ => rfl)]
      decide
    · rw [predictInclusions, List.countP_append, List.countP_append, hsec,
        countP_russellIncl_eq_zero isBiotechRow _ rfl rfl,
        countP_alwaysIncl_eq_zero isBiotechRow ipoDate mcap rfl
          (fun _ => rfl) (fun _ => rfl)]
      decide
  · have hsec : sectorIncl sector industry so =
        [⟨"Nasdaq 100 (QQQ)", "Standard or Fast Entry (15 Days)",
          "Varies"⟩] := by
      rcases h with h | ⟨h, h1, h2, h3⟩
      · subst h
        simp [sectorIncl, isBiotech, isTech]
      · subst h
        have hb : isBiotech sector industry "Auto-Detect" = false := by
          simp [isBiotech, h1, h2, h3]
        simp [sectorIncl, hb]
    refine ⟨?_, ?_, ?_⟩
    · rw [predictInclusions, hsec]
    · rw [predictInclusions, List.countP_append, List.countP_append, hsec,
        countP_russellIncl_eq_zero isBiotechRow _ rfl rfl,
        countP_alwaysIncl_eq_zero isBiotechRow ipoDate mcap rfl
          (fun _ => rfl) (fun _ => rfl)]
      decide
    · rw [predictInclusions, List.countP_append, List.countP_append, hsec,
        countP_russellIncl_eq_zero isGrowthRow _ rfl rfl,
        countP_alwaysIncl_eq_zero isGrowthRow ipoDate mcap rfl
          (fun _ => rfl) (fun _ => rfl)]
      decide
  · have hsec : sectorIncl sector industry so = [] := by
      subst h
      simp [sectorIncl, isBiotech, isTech]
    refine ⟨?_, ?_, ?_⟩
    · rw [predictInclusions, hsec, List.append_nil]
    · rw [predictInclusions, List.countP_append, List.countP_append, hsec,
        countP_russellIncl_eq_zero isBiotechRow _ rfl rfl,
        countP_alwaysIncl_eq_zero isBiotechRow ipoDate mcap rfl
          (fun _ => rfl) (fun _ => rfl)]
      decide
    · rw [predictInclusions, List.countP_append, List.countP_append, hsec,
        countP_russellIncl_eq_zero isGrowthRow _ rfl rfl,
        countP_alwaysIncl_eq_zero isGrowthRow ipoDate mcap rfl
          (fun _ => rfl) (fun _ => rfl)]
      decide

/-- Concrete instantiations of `c2_sector_rule`: a Healthcare security
under auto-detect gets the two biotech rows and no growth row; an Energy
security under auto-detect still gets the growth row; the `"Other"`
override appends nothing. -/
theorem c2_sector_rule_witness :
    predictInclusions 19783 "Healthcare" "Unknown" 0 "Auto-Detect" =
      russellIncl (monthOf 19783) ++ alwaysIncl 19783 0 ++
        [⟨"S&P Biotech (XBI)", "Next Quarterly Rebalance", "High"⟩,
         ⟨"Nasdaq Biotech (NBI)", "December (Annual)", "High"⟩] ∧
    (predictInclusions 19783 "Healthcare" "Unknown" 0
      "Auto-Detect").countP isGrowthRow = 0 ∧
    predictInclusions 19783 "Energy" "Oil & Gas" 0 "Auto-Detect" =
      russellIncl (monthOf 19783) ++ alwaysIncl 19783 0 ++
        [⟨"Nasdaq 100 (QQQ)", "Standard or Fast Entry (15 Days)",
          "Varies"⟩] ∧
    predictInclusions 19783 "Technology" "Software" 0 "Other" =
      russellIncl (monthOf 19783) ++ alwaysIncl 19783 0 :=
  ⟨((c2_sector_rule 19783 "Healthcare" "Unknown" 0 "Auto-Detect").1
      (Or.inr ⟨rfl, Or.inl rfl⟩)).1,
   ((c2_sector_rule 19783 "Healthcare" "Unknown" 0 "Auto-Detect").1
      (Or.inr ⟨rfl, Or.inl rfl⟩)).2.1,
   ((c2_sector_rule 19783 "Energy" "Oil & Gas" 0 "Auto-Detect").2.1
      (Or.inr ⟨rfl, by decide, by decide, by decide⟩)).1,
   ((c2_sector_rule 19783 "Technology" "Software" 0 "Other").2.2 rfl).1⟩

/-- C3: in every inclusion list, immediately after the (zero or one)
Russell entries come, in fixed order, the total-market prediction (target
`"Next Quarterly Rebalance"`, probability High), the large-global-index
prediction (target `"Next Index Review"`, probability High iff
`marketCapUsd ≥ 1e9`, so exactly 1e9 is High), and the mid-cap composite
prediction (probability Low) whose target is the formatted month/year of
the date 365 days after the first-trade date. -/
theorem c3_unconditional (ipoDate : Int) (sector industry : String)
    (mcap : Rat) (so : String) :
    predictInclusions ipoDate sector industry mcap so =
      russellIncl (monthOf ipoDate) ++
        [⟨"CRSP US Total Market (VTI)", "Next Quarterly Rebalance",
          "High"⟩,
         ⟨"MSCI USA IMI", "Next Index Review",
            if (1000000000 : Rat) ≤ mcap then "High" else "Medium"⟩,
         ⟨"S&P Composite 1500", "After " ++ fmtMonthYear (ipoDate + 365),
          "Low"⟩] ++
        sectorIncl sector industry so ∧
    (russellIncl (monthOf ipoDate)).length ≤ 1 ∧
    ((1000000000 : Rat) ≤ mcap ↔
      ((alwaysIncl ipoDate mcap)[1]!).prob = "High") ∧
    ((alwaysIncl ipoDate (1000000000 : Rat))[1]!).prob = "High" := by
  refine ⟨rfl, ?_, ?_, ?_⟩
  · rw [russellIncl]
    split
    · simp
    · split
      · simp
      · simp
  · rw [show ((alwaysIncl ipoDate mcap)[1]!).prob =
        (if (1000000000 : Rat) ≤ mcap then "High" else "Medium")
        from rfl]
    split_ifs with hm
    · simp [hm]
    · simp [hm]
  · rw [show ((alwaysIncl ipoDate (1000000000 : Rat))[1]!).prob =
        (if (1000000000 : Rat) ≤ (1000000000 : Rat) then "High"
          else "Medium") from rfl]
    rw [if_pos le_rfl]

lemma date_le_getLast_of_sorted :
    ∀ (l : List PricePoint),
      List.Pairwise (fun a b => a.date < b.date) l →
      ∀ (hne : l ≠ []) (q : PricePoint), q ∈ l →
        q.date ≤ (l.getLast hne).date := by
  intro l
  induction l with
  | nil => intro _ hne; exact absurd rfl hne
  | cons a t ih =>
    intro hp hne q hq
    cases t with
    | nil =>
      rw [List.mem_singleton] at hq
      subst hq
      exact le_rfl
    | cons b t2 =>
      rw [List.getLast_cons (l := b :: t2) (by simp)]
      cases hq with
      | head =>
        exact le_of_lt (List.rel_of_pairwise_cons hp
          (List.getLast_mem (l := b :: t2) (by simp)))
      | tail _ hq2 =>
        exact ih hp.of_cons (by simp) q hq2

/-- Unfolding of `get_metrics` on a nonempty series. -/
lemma get_metrics_eq (hist : List PricePoint) (now : Int) (hne : hist ≠ []) :
    get_metrics hist now =
      (let dflt : PricePoint := ⟨0, .fin 0⟩
       let currentPrice := (hist.getLast?.getD dflt).close
       let prevClose :=
         if 1 < hist.length then ((hist[hist.length - 2]?).getD dflt).close
         else currentPrice
       let ytdData := hist.filter (fun p => yearOf p.date = yearOf now)
       let ytdVal :=
         if ytdData.isEmpty then .fin 0
         else pctChange currentPrice ((ytdData.head?.getD dflt).close)
       let ytdReturn :=
         if ytdData.isEmpty then "N/A" else fmtSigned2 ytdVal ++ "%"
       let pastData := hist.filter (fun p => p.date ≤ now - 365)
       let oneYrVal :=
         if pastData.isEmpty then
           pctChange currentPrice ((hist.head?.getD dflt).close)
         else pctChange currentPrice ((pastData.getLast?.getD dflt).close)
       let oneYrReturn :=
         if pastData.isEmpty then fmtSigned2 oneYrVal ++ "% (Since IPO)"
         else if 250 ≤ hist.length then fmtSigned2 oneYrVal ++ "%"
         else fmtSigned2 oneYrVal ++ "% (Since IPO)"
       ⟨currentPrice, prevClose, ytdReturn, oneYrReturn, ytdVal,
         oneYrVal⟩) := by
  unfold get_metrics
  rw [if_neg (by simp [List.isEmpty_eq_false.mpr hne])]

/-- C5: the one-year return uses as base the latest price point dated at
most `now - 365` days; if no point is that old it falls back to the first
point of the series and the string carries the `"(Since IPO)"` flag; and
even when an old-enough point exists, the string carries the flag iff the
series has fewer than 250 observations. -/
theorem c5_one_year (hist : List PricePoint) (now : Int) (hne : hist ≠ [])
    (hsorted : List.Pairwise (fun a b => a.date < b.date) hist) :
    (∀ hp : hist.filter (fun p => p.date ≤ now - 365) ≠ [],
      ((hist.filter (fun p => p.date ≤ now - 365)).getLast hp).date ≤
        now - 365 ∧
      (∀ q ∈ hist, q.date ≤ now - 365 →
        q.date ≤
          ((hist.filter (fun p => p.date ≤ now - 365)).getLast hp).date) ∧
      (get_metrics hist now).oneYrVal =
        pctChange (get_metrics hist now).currentPrice
          (((hist.filter (fun p => p.date ≤ now - 365)).getLast hp).close) ∧
      (get_metrics hist now).oneYrReturn =
        fmtSigned2 ((get_metrics hist now).oneYrVal) ++
          (if 250 ≤ hist.length then "%" else "% (Since IPO)")) ∧
    (hist.filter (fun p => p.date ≤ now - 365) = [] →
      (get_metrics hist now).oneYrVal =
        pctChange (get_metrics hist now).currentPrice
          ((hist.head hne).close) ∧
      (get_metrics hist now).oneYrReturn =
        fmtSigned2 ((get_metrics hist now).oneYrVal) ++ "% (Since IPO)") := by
  constructor
  · intro hp
    have hcond : ¬((hist.filter (fun p => p.date ≤ now - 365)).isEmpty
        = true) := by
      simp [List.isEmpty_eq_false.mpr hp]
    refine ⟨?_, ?_, ?_, ?_⟩
    · have hmem := List.getLast_mem hp
      have := (List.mem_filter.mp hmem).2
      exact of_decide_eq_true this
    · intro q hq hqd
      exact date_le_getLast_of_sorted _ (hsorted.filter _) hp q
        (List.mem_filter.mpr ⟨hq, decide_eq_true hqd⟩)
    · rw [get_metrics_eq hist now hne]
      dsimp only
      simp only [if_neg hcond]
      rw [List.getLast?_eq_getLast _ hp, Option.getD_some]
    · rw [get_metrics_eq hist now hne]
      dsimp only
      simp only [if_neg hcond]
      split_ifs <;> rfl
  · intro hp
    have hcond : (hist.filter (fun p => p.date ≤ now - 365)).isEmpty
        = true := List.isEmpty_iff.mpr hp
    constructor
    · rw [get_metrics_eq hist now hne]
      dsimp only
      simp only [if_pos hcond]
      rw [List.head?_eq_head hne, Option.getD_some]
    · rw [get_metrics_eq hist now hne]
      dsimp only
      simp only [if_pos hcond]

/-- Concrete instantiations of `c5_one_year`: a two-point series with an
old-enough first point uses it as the base and is flagged Since-IPO (fewer
than 250 observations); a series with no old-enough point falls back to
the IPO price and is flagged. -/
theorem c5_one_year_witness :
    (get_metrics [⟨19000, PFloat.fin 10⟩, ⟨19783, PFloat.fin 15⟩]
        19783).oneYrReturn =
      fmtSigned2 ((get_metrics [⟨19000, PFloat.fin 10⟩,
        ⟨19783, PFloat.fin 15⟩] 19783).oneYrVal) ++ "% (Since IPO)" ∧
    (get_metrics [⟨19700, PFloat.fin 10⟩, ⟨19783, PFloat.fin 15⟩]
        19783).oneYrVal =
      pctChange (get_metrics [⟨19700, PFloat.fin 10⟩,
        ⟨19783, PFloat.fin 15⟩] 19783).currentPrice (PFloat.fin 10) := by
  constructor
  · have h := ((c5_one_year [⟨19000, PFloat.fin 10⟩, ⟨19783, PFloat.fin 15⟩]
        19783 (by decide) (by decide)).1 (by decide)).2.2.2
    simpa using h
  · have h := ((c5_one_year [⟨19700, PFloat.fin 10⟩, ⟨19783, PFloat.fin 15⟩]
        19783 (by decide) (by decide)).2 (by decide)).1
    simpa using h

/-- C4 counterexample: a series whose same-year base price is exactly 0
(day 19900 and day 20000 both fall in the civil year of day 20000).  The
computation completes, but the result is the formatted infinity `"+inf%"`,
not an `"N/A"`-style undefined result, because the percentage formula has
no zero-base guard and floating point division by zero yields infinity.
The one-year fallback base is the same zero point, so the one-year string
is `"+inf% (Since IPO)"`. -/
theorem c4_zero_base_counterexample :
    (get_metrics [⟨19900, PFloat.fin 0⟩, ⟨20000, PFloat.fin 5⟩]
      20000).ytdReturn = "+inf%" ∧
    (get_metrics [⟨19900, PFloat.fin 0⟩, ⟨20000, PFloat.fin 5⟩]
      20000).ytdReturn ≠ "N/A" ∧
    (get_metrics [⟨19900, PFloat.fin 0⟩, ⟨20000, PFloat.fin 5⟩]
      20000).oneYrReturn = "+inf% (Since IPO)" := by
  have hpct : pctChange (PFloat.fin 5) (PFloat.fin 0) = PFloat.inf := by
    norm_num [pctChange, PFloat.sub, PFloat.div, PFloat.mul100]
  have h1 : (get_metrics [⟨19900, PFloat.fin 0⟩, ⟨20000, PFloat.fin 5⟩]
      20000).ytdReturn = "+inf%" := by
    rw [get_metrics_eq _ _ (by decide)]
    dsimp only
    rw [if_neg (by decide), if_neg (by decide)]
    show fmtSigned2 (pctChange (PFloat.fin 5) (PFloat.fin 0)) ++ "%"
      = "+inf%"
    rw [hpct]
    rfl
  have h3 : (get_metrics [⟨19900, PFloat.fin 0⟩, ⟨20000, PFloat.fin 5⟩]
      20000).oneYrReturn = "+inf% (Since IPO)" := by
    rw [get_metrics_eq _ _ (by decide)]
    dsimp only
    rw [if_pos (by decide), if_pos (by decide)]
    show fmtSigned2 (pctChange (PFloat.fin 5) (PFloat.fin 0))
      ++ "% (Since IPO)" = "+inf% (Since IPO)"
    rw [hpct]
    rfl
  refine ⟨h1, ?_, h3⟩
  rw [h1]
  decide

/-- C4 amended: a base price of exactly 0 never raises a division fault —
the division yields a floating point infinity — but the rendered result is
the formatted `"+inf%"`-style string, not an `"N/A"`-style undefined
result (`"N/A"` appears only when no same-year point exists at all).  This
holds for the YTD computation, the trailing-year computation, and its
since-IPO fallback. -/
theorem c4_zero_base (hist : List PricePoint) (now : Int) (hne : hist ≠ [])
    (c : Rat)
    (hcur : (hist.getLast?.getD ⟨0, PFloat.fin 0⟩).close = PFloat.fin c)
    (hc : 0 < c) :
    ((hist.filter (fun p => yearOf p.date = yearOf now)) ≠ [] →
      ((hist.filter (fun p => yearOf p.date = yearOf now)).head?.getD
          ⟨0, PFloat.fin 0⟩).close = PFloat.fin 0 →
      (get_metrics hist now).ytdVal = PFloat.inf ∧
      (get_metrics hist now).ytdReturn = "+inf%" ∧
      (get_metrics hist now).ytdReturn ≠ "N/A") ∧
    ((hist.filter (fun p => p.date ≤ now - 365)) ≠ [] →
      ((hist.filter (fun p => p.date ≤ now - 365)).getLast?.getD
          ⟨0, PFloat.fin 0⟩).close = PFloat.fin 0 →
      (get_metrics hist now).oneYrVal = PFloat.inf ∧
      (get_metrics hist now).oneYrReturn =
        "+inf" ++ (if 250 ≤ hist.length then "%" else "% (Since IPO)")) ∧
    ((hist.filter (fun p => p.date ≤ now - 365)) = [] →
      (hist.head?.getD ⟨0, PFloat.fin 0⟩).close = PFloat.fin 0 →
      (get_metrics hist now).oneYrVal = PFloat.inf ∧
      (get_metrics hist now).oneYrReturn = "+inf% (Since IPO)") := by
  have hpct : pctChange (PFloat.fin c) (PFloat.fin 0) = PFloat.inf := by
    simp [pctChange, PFloat.sub, PFloat.div, PFloat.mul100, sub_zero,
      hc, hc.ne']
  refine ⟨fun hY hY0 => ?_, fun hP hP0 => ?_, fun hP hP0 => ?_⟩
  · have hcond : ¬((hist.filter
        (fun p => yearOf p.date = yearOf now)).isEmpty = true) := by
      simp [List.isEmpty_eq_false.mpr hY]
    refine ⟨?_, ?_, ?_⟩
    · rw [get_metrics_eq hist now hne]
      dsimp only
      simp only [if_neg hcond]
      rw [hcur, hY0, hpct]
    · rw [get_metrics_eq hist now hne]
      dsimp only
      simp only [if_neg hcond]
      rw [hcur, hY0, hpct]
      rfl
    · rw [get_metrics_eq hist now hne]
      dsimp only
      simp only [if_neg hcond]
      rw [hcur, hY0, hpct]
      decide
  · have hcond : ¬((hist.filter
        (fun p => p.date ≤ now - 365)).isEmpty = true) := by
      simp [List.isEmpty_eq_false.mpr hP]
    constructor
    · rw [get_metrics_eq hist now hne]
      dsimp only
      simp only [if_neg hcond]
      rw [hcur, hP0, hpct]
    · rw [get_metrics_eq hist now hne]
      dsimp only
      simp only [if_neg hcond]
      rw [hcur, hP0, hpct]
      split_ifs <;> rfl
  · have hcond : (hist.filter (fun p => p.date ≤ now - 365)).isEmpty
        = true := List.isEmpty_iff.mpr hP
    constructor
    · rw [get_metrics_eq hist now hne]
      dsimp only
      simp only [if_pos hcond]
      rw [hcur, hP0, hpct]
    · rw [get_metrics_eq hist now hne]
      dsimp only
      simp only [if_pos hcond]
      rw [hcur, hP0, hpct]
      rfl

/-- Concrete instantiation of `c4_zero_base`: both percentage computations
of a two-point series with a zero base complete with `"+inf%"`-style
output. -/
theorem c4_zero_base_witness :
    (get_metrics [⟨19900, PFloat.fin 0⟩, ⟨20000, PFloat.fin 7⟩]
      20000).ytdReturn = "+inf%" ∧
    (get_metrics [⟨19900, PFloat.fin 0⟩, ⟨20000, PFloat.fin 7⟩]
      20000).oneYrReturn = "+inf% (Since IPO)" :=
  ⟨(((c4_zero_base [⟨19900, PFloat.fin 0⟩, ⟨20000, PFloat.fin 7⟩] 20000
      (by decide) 7 rfl (by norm_num)).1 (by decide) rfl).2).1,
   ((c4_zero_base [⟨19900, PFloat.fin 0⟩, ⟨20000, PFloat.fin 7⟩] 20000
      (by decide) 7 rfl (by norm_num)).2.2 (by decide) rfl).2⟩

end IPO
